import Mathlib

/-!
Verification development for the HALCYON household voice-assistant runtime.

Each Python component named in the claims is shallowly embedded: pure
functions become Lean functions over `ℚ` (for `float`), stateful classes
become explicit state passing, Python `dict`s become association lists,
exceptions become `Except`, and optional collaborators (MQTT bridge,
Redis, HTTP clients, persona agents) become function parameters whose
calls are recorded or whose results are supplied.
-/

/-- Context modes recognised by the trust scorer and session state. -/
inductive ContextMode
  | home
  | away
  | night
  | maintenance
  | incident
  deriving DecidableEq, Repr

/-- Derived access tier, `Role = Literal["owner", "household", "guest", "unknown"]`. -/
inductive Role
  | owner
  | household
  | guest
  | unknown
  deriving DecidableEq, Repr

/-- Association-list lookup modelling a Python dict `get` (one binding per key). -/
def alookup {α : Type} (k : String) : List (String × α) → Option α
  | [] => none
  | p :: rest => if p.1 = k then some p.2 else alookup k rest

/-- Association-list insert-or-update modelling Python dict assignment. -/
def aupsert {α : Type} (k : String) (v : α) : List (String × α) → List (String × α)
  | [] => [(k, v)]
  | p :: rest => if p.1 = k then (k, v) :: rest else p :: aupsert k v rest

/-- Association-list removal modelling a Python dict `pop` (keys are
unique in a dict, so removing every binding of `k` is the same). -/
def aremove {α : Type} (k : String) : List (String × α) → List (String × α)
  | [] => []
  | p :: rest => if p.1 = k then aremove k rest else p :: aremove k rest

namespace TrustScoring

/-- Inputs that contribute to the dynamic trust evaluation
(`TrustInputs` in `orchestrator/policy_engine/trust_scoring.py`). -/
structure TrustInputs where
  speaker_id : Option String
  voice_match : Option ℚ := none
  face_match : Option ℚ := none
  prior_score : ℚ := 0
  context_mode : ContextMode := .home
  reassurance : ℚ := 0
  threat : ℚ := 0
  last_update_ts : ℚ := 0
  now_ts : ℚ := 0
  deriving Repr

/-- Persona bias carried in a trust decision. -/
inductive PersonaBias
  | HALSTON
  | SCARLET
  | neutral
  deriving DecidableEq, Repr

/-- Outcome from trust scoring (`TrustDecision`); the diagnostic `notes`
string of the source is not modelled. -/
structure TrustDecision where
  score : ℚ
  role : Role
  allow_sensitive : Bool
  persona_bias : PersonaBias
  deriving Repr

/-- Python `x or 0.0` applied to an optional float: `None` and `0.0` are
falsy, any other value is returned unchanged. -/
def pyOrZero : Option ℚ → ℚ
  | none => 0
  | some v => if v = 0 then 0 else v

/-- The `voice` local of `TrustScorer.score`: `inp.voice_match or 0.0`. -/
def voiceOf (inp : TrustInputs) : ℚ := pyOrZero inp.voice_match

/-- The `face` local of `TrustScorer.score`: `inp.face_match or 0.0`. -/
def faceOf (inp : TrustInputs) : ℚ := pyOrZero inp.face_match

/-- CONTEXT_PENALTIES table of `TrustScorer`. -/
def contextPenalty : ContextMode → ℚ
  | .home => 0
  | .maintenance => -5
  | .night => 8
  | .away => 15
  | .incident => 25

/-- BASE_GUEST class constant. -/
def BASE_GUEST : ℚ := 15

/-- OWNER_THRESH class constant. -/
def OWNER_THRESH : ℚ := 75

/-- HOUSEHOLD_THRESH class constant. -/
def HOUSEHOLD_THRESH : ℚ := 55

/-- GUEST_MAX class constant. -/
def GUEST_MAX : ℚ := 35

/-- COOLDOWN_SEC class constant. -/
def COOLDOWN_SEC : ℚ := 20

/-- HYSTERESIS_BAND class constant. -/
def HYSTERESIS_BAND : ℚ := 6

/-- Score accumulation of `TrustScorer.score` before hysteresis:
`s = max(BASE_GUEST, id_strength)` minus context penalty, plus clamped
reassurance, minus clamped threat. -/
def preScore (inp : TrustInputs) : ℚ :=
  let id_strength := max (voiceOf inp) (faceOf inp) * 100
  let s := max BASE_GUEST id_strength
  let s := s - contextPenalty inp.context_mode
  let s := s + max (-20) (min 20 inp.reassurance)
  s - max 0 (min 30 inp.threat)

/-- Hysteresis step of `TrustScorer.score`: `dt = now - last_update_ts`
when `last_update_ts` is truthy else 9999; keep the prior score when
`dt < COOLDOWN_SEC` and `|s - prior| < HYSTERESIS_BAND`. -/
def hysteresisScore (inp : TrustInputs) : ℚ :=
  let s := preScore inp
  let dt := if inp.last_update_ts ≠ 0 then inp.now_ts - inp.last_update_ts else 9999
  if dt < COOLDOWN_SEC ∧ |s - inp.prior_score| < HYSTERESIS_BAND then inp.prior_score else s

/-- Final clamped score of `TrustScorer.score`: `max(0.0, min(100.0, s))`. -/
def scoreValue (inp : TrustInputs) : ℚ :=
  max 0 (min 100 (hysteresisScore inp))

/-- Role assignment of `TrustScorer.score`: the threshold ladder over the
clamped score, with `role_hint = identity_role_hint or "household"`. -/
def roleOf (inp : TrustInputs) (identity_role_hint : Option Role) : Role :=
  let s := scoreValue inp
  if OWNER_THRESH ≤ s then
    if identity_role_hint.getD .household = .owner then .owner else .household
  else if HOUSEHOLD_THRESH ≤ s then .household
  else if s ≤ GUEST_MAX then .guest
  else .guest

/-- Sensitive-action admission of `TrustScorer.score`: membership in
owner/household with a home/maintenance context, overridden to `true`
for a night-mode owner with `voice >= 0.80`. -/
def allowSensitiveOf (inp : TrustInputs) (identity_role_hint : Option Role) : Bool :=
  let role := roleOf inp identity_role_hint
  let base := decide ((role = Role.owner ∨ role = Role.household) ∧
    (inp.context_mode = ContextMode.home ∨ inp.context_mode = ContextMode.maintenance))
  if inp.context_mode = ContextMode.night ∧ role = Role.owner ∧ (4/5 : ℚ) ≤ voiceOf inp then
    true
  else base

/-- Persona bias of `TrustScorer.score`. -/
def personaBiasOf (inp : TrustInputs) (identity_role_hint : Option Role) : PersonaBias :=
  let role := roleOf inp identity_role_hint
  if (15 : ℚ) ≤ inp.threat ∨ inp.context_mode = ContextMode.away ∨
      inp.context_mode = ContextMode.incident then .SCARLET
  else if (role = Role.owner ∨ role = Role.household) ∧ inp.threat ≤ 5 then .HALSTON
  else .neutral

/-- `TrustScorer.score` from `orchestrator/policy_engine/trust_scoring.py`,
assembled from the step functions above. -/
def TrustScorer.score (inp : TrustInputs) (identity_role_hint : Option Role) : TrustDecision :=
  { score := scoreValue inp
    role := roleOf inp identity_role_hint
    allow_sensitive := allowSensitiveOf inp identity_role_hint
    persona_bias := personaBiasOf inp identity_role_hint }

end TrustScoring

/-- Python `str.lower()` modelled character-wise. -/
def py_lower (s : String) : String := ⟨s.data.map Char.toLower⟩

/-- Python `str.strip()`: drop leading and trailing whitespace. -/
def py_strip (s : String) : String :=
  ⟨((s.data.dropWhile Char.isWhitespace).reverse.dropWhile Char.isWhitespace).reverse⟩

/-- Python truthiness of an optional string (`None` and `""` are falsy). -/
def truthyStr : Option String → Bool
  | none => false
  | some s => s ≠ ""

/-- Python `x or default` for an optional string (empty string falls back). -/
def py_or_str (x : Option String) (d : String) : String :=
  match x with
  | none => d
  | some s => if s = "" then d else s

namespace VoicePipeline

/-- Privacy-zone and DND-zone sets of `RoomRegistry`
(`services/voice_pipeline/room_registry.py`), loaded from comma-separated
environment lists. -/
structure RoomRegistryZones where
  privacy_zones : List String
  dnd_zones : List String
  deriving Repr

/-- `RoomRegistry.is_privacy_zone`: membership of the room id in the
privacy-zone set. -/
def is_privacy_zone (reg : RoomRegistryZones) (room_id : String) : Bool :=
  reg.privacy_zones.contains room_id

/-- `RoomRegistry.is_dnd_zone`: membership of the room id in the DND-zone
set. -/
def is_dnd_zone (reg : RoomRegistryZones) (room_id : String) : Bool :=
  reg.dnd_zones.contains room_id

/-- `ConversationRouter.can_speak_in` from
`services/voice_pipeline/conversation_router.py`: privacy zones always
deny; DND zones deny unless the persona is SCARLET; otherwise allow. -/
def can_speak_in (reg : RoomRegistryZones) (room_id : String)
    (persona : String := "HALSTON") : Bool :=
  if is_privacy_zone reg room_id then false
  else if is_dnd_zone reg room_id then persona == "SCARLET"
  else true

end VoicePipeline

namespace HAAdapter

/-- Runtime context describing the caller trust posture (`IntentContext`
in `ha_adapter/intents/intent_router.py`). -/
structure IntentContext where
  role : String
  allow_sensitive : Bool := false
  mode : String := "home"
  speaker_uuid : Option String := none
  session_id : Option String := none
  persona : String := "HALSTON"
  deriving DecidableEq, Repr

/-- Result returned after attempting to fulfil an intent (`IntentResult`);
`details` defaults to an empty dict. -/
structure IntentResult where
  ok : Bool
  spoken : String
  details : List (String × String) := []
  deriving DecidableEq, Repr

/-- Service-call record published to the HA bridge by
`HAMQTTBridge.call_service(domain, service, data)`. -/
structure ServiceCall where
  domain : String
  service : String
  data : List (String × String)
  deriving DecidableEq, Repr

/-- Slot mapping passed to intent handlers (values modelled as strings). -/
def Slots : Type := List (String × String)

/-- Optional media intent handler (`MediaIntentHandler`), an external
collaborator of the router supplied as three result functions. -/
structure MediaHandler where
  handle_recommend : IntentContext → Slots → IntentResult
  handle_add_request : IntentContext → Slots → IntentResult
  handle_add_to_list : IntentContext → Slots → IntentResult

/-- `IntentRouter._deny`. -/
def deny (reason : String) : IntentResult := { ok := false, spoken := reason }

/-- `IntentRouter._result`: success text when ok, otherwise the failure
text or the generic fallback. -/
def result (ok : Bool) (success : String) (failure : Option String := none) : IntentResult :=
  { ok := ok
    spoken := if ok then success else py_or_str failure "I couldn\x27t complete that." }

/-- `IntentRouter._intent_turn_on_light`; the bridge is modelled by `svc`,
which also yields whether the call succeeded, and every call made is
returned alongside the result. -/
def intent_turn_on_light (svc : ServiceCall → Bool) (slots : Slots)
    (_ctx : IntentContext) : IntentResult × List ServiceCall :=
  let entity := alookup "entity_id" slots
  if ¬ truthyStr entity then (deny "Which light?", [])
  else
    let call : ServiceCall := ⟨"light", "turn_on", [("entity_id", entity.getD "")]⟩
    (result (svc call) "Done." (some "I couldn\x27t reach that light."), [call])

/-- `IntentRouter._intent_turn_off_light`. -/
def intent_turn_off_light (svc : ServiceCall → Bool) (slots : Slots)
    (_ctx : IntentContext) : IntentResult × List ServiceCall :=
  let entity := alookup "entity_id" slots
  if ¬ truthyStr entity then (deny "Which light?", [])
  else
    let call : ServiceCall := ⟨"light", "turn_off", [("entity_id", entity.getD "")]⟩
    (result (svc call) "Done." (some "I couldn\x27t reach that light."), [call])

/-- `IntentRouter._intent_set_temperature`: defaults the entity, requires
the `temperature` key to be present. -/
def intent_set_temperature (svc : ServiceCall → Bool) (slots : Slots)
    (_ctx : IntentContext) : IntentResult × List ServiceCall :=
  let entity := (alookup "entity_id" slots).getD "climate.living"
  match alookup "temperature" slots with
  | none => (deny "What temperature?", [])
  | some temp =>
    let call : ServiceCall :=
      ⟨"climate", "set_temperature", [("entity_id", entity), ("temperature", temp)]⟩
    (result (svc call) "Temperature set.", [call])

/-- `IntentRouter._intent_media_play_pause`. -/
def intent_media_play_pause (svc : ServiceCall → Bool) (slots : Slots)
    (_ctx : IntentContext) : IntentResult × List ServiceCall :=
  let entity := (alookup "entity_id" slots).getD "media_player.living_room"
  let call : ServiceCall := ⟨"media_player", "media_play_pause", [("entity_id", entity)]⟩
  (result (svc call) "Okay." (some "I couldn\x27t control that player."), [call])

/-- `IntentRouter._intent_lock_door`. -/
def intent_lock_door (svc : ServiceCall → Bool) (slots : Slots)
    (_ctx : IntentContext) : IntentResult × List ServiceCall :=
  let entity := (alookup "entity_id" slots).getD "lock.front_door"
  let call : ServiceCall := ⟨"lock", "lock", [("entity_id", entity)]⟩
  (result (svc call) "Locked." (some "I couldn\x27t lock it."), [call])

/-- `IntentRouter._intent_unlock_door`. -/
def intent_unlock_door (svc : ServiceCall → Bool) (slots : Slots)
    (_ctx : IntentContext) : IntentResult × List ServiceCall :=
  let entity := (alookup "entity_id" slots).getD "lock.front_door"
  let call : ServiceCall := ⟨"lock", "unlock", [("entity_id", entity)]⟩
  (result (svc call) "Unlocked." (some "I couldn\x27t unlock it."), [call])

/-- `IntentRouter._intent_open_garage`. -/
def intent_open_garage (svc : ServiceCall → Bool) (slots : Slots)
    (_ctx : IntentContext) : IntentResult × List ServiceCall :=
  let entity := (alookup "entity_id" slots).getD "cover.garage"
  let call : ServiceCall := ⟨"cover", "open_cover", [("entity_id", entity)]⟩
  (result (svc call) "Opening the garage." (some "I couldn\x27t open it."), [call])

/-- `IntentRouter._intent_disarm_alarm`: requires a truthy `code` slot. -/
def intent_disarm_alarm (svc : ServiceCall → Bool) (slots : Slots)
    (_ctx : IntentContext) : IntentResult × List ServiceCall :=
  let code := alookup "code" slots
  if ¬ truthyStr code then (deny "I need the code to disarm.", [])
  else
    let entity := (alookup "entity_id" slots).getD "alarm_control_panel.home"
    let call : ServiceCall :=
      ⟨"alarm_control_panel", "alarm_disarm",
        [("entity_id", entity), ("code", code.getD "")]⟩
    (result (svc call) "Alarm disarmed." (some "I couldn\x27t disarm the alarm."), [call])

/-- `IntentRouter.handle` from `ha_adapter/intents/intent_router.py`:
normalise the intent, deny empty intents, deny sensitive intents without
`allow_sensitive`, dispatch media intents to the optional media handler,
otherwise dispatch to the per-intent handlers (the reflection-based
`_intent_*` lookup of the source becomes an explicit name match). -/
def handle (media : Option MediaHandler) (svc : ServiceCall → Bool)
    (intent : String) (slots : Slots) (ctx : IntentContext) :
    IntentResult × List ServiceCall :=
  let normalized := py_lower (py_strip intent)
  if normalized = "" then (deny "I didn\x27t catch that.", [])
  else if (normalized = "unlock_door" ∨ normalized = "open_garage" ∨
      normalized = "disarm_alarm") ∧ ctx.allow_sensitive = false then
    (deny "That function is not available right now.", [])
  else if normalized = "media_recommend" ∨ normalized = "media_request" ∨
      normalized = "media_add_to_list" then
    match media with
    | none => (deny "Media services are not configured.", [])
    | some m =>
      if normalized = "media_recommend" then (m.handle_recommend ctx slots, [])
      else if normalized = "media_request" then (m.handle_add_request ctx slots, [])
      else (m.handle_add_to_list ctx slots, [])
  else if normalized = "turn_on_light" then intent_turn_on_light svc slots ctx
  else if normalized = "turn_off_light" then intent_turn_off_light svc slots ctx
  else if normalized = "set_temperature" then intent_set_temperature svc slots ctx
  else if normalized = "media_play_pause" then intent_media_play_pause svc slots ctx
  else if normalized = "lock_door" then intent_lock_door svc slots ctx
  else if normalized = "unlock_door" then intent_unlock_door svc slots ctx
  else if normalized = "open_garage" then intent_open_garage svc slots ctx
  else if normalized = "disarm_alarm" then intent_disarm_alarm svc slots ctx
  else (deny "I can’t do that yet.", [])

end HAAdapter

/-- Stable insertion step for a descending sort: `x` is placed before the
first element it strictly beats under `gt`, so equal elements keep their
original relative order, matching Python `sorted(..., reverse=True)`. -/
def insertDescWith {α : Type} (gt : α → α → Bool) (x : α) : List α → List α
  | [] => [x]
  | y :: ys => if gt x y then x :: y :: ys else y :: insertDescWith gt x ys

/-- Stable descending sort modelling Python `sorted(..., reverse=True)`
(Python list.sort is stable). -/
def sortDescWith {α : Type} (gt : α → α → Bool) (l : List α) : List α :=
  l.foldl (fun acc x => insertDescWith gt x acc) []

namespace VoicePipeline

/-- PCM_RATE of `services/voice_pipeline/stt_engine.py`. -/
def PCM_RATE : ℕ := 16000

/-- PCM_WIDTH (16-bit audio). -/
def PCM_WIDTH : ℕ := 2

/-- FRAME_DURATION_MS. -/
def FRAME_DURATION_MS : ℕ := 20

/-- SAMPLES_PER_FRAME = `int(PCM_RATE * (FRAME_DURATION_MS / 1000.0))`. -/
def SAMPLES_PER_FRAME : ℕ := PCM_RATE * FRAME_DURATION_MS / 1000

/-- FRAME_SIZE_BYTES = SAMPLES_PER_FRAME * PCM_WIDTH (640 bytes). -/
def FRAME_SIZE_BYTES : ℕ := SAMPLES_PER_FRAME * PCM_WIDTH

/-- Active session record of `InputMux` (`mic_id -> (uuid, temp_id,
start_time)`). -/
structure MuxSession where
  uuid : Option String
  temp_id : String
  start_time : ℚ
  deriving DecidableEq, Repr

/-- The `active_sessions` map of `InputMux`. -/
def MuxState : Type := List (String × MuxSession)

/-- Observable effects of `InputMux.push`: a frame handed to
`STTEngine.push_audio`, a frame handed to the wakeword listener, or a
`voice/stream_state` telemetry publish. -/
inductive MuxEffect
  | sttPush (frame : List ℕ)
  | wakewordListener (frame : List ℕ)
  | publishStreamState (mic_id : String) (state : String)
      (uuid : Option String) (temp_id : Option String)
  deriving DecidableEq, Repr

/-- `InputMux.push` from `services/voice_pipeline/input_mux.py`: drop
frames of the wrong size; with no active session for the mic forward the
frame only to the optional wakeword listener; with an active session
forward to STT and publish a throttled stream-state update. Audio bytes
are modelled as lists of byte values and the `int(now*10) % 10` throttle
uses the floor (times are nonnegative). -/
def push (hasListener : Bool) (sessions : MuxState) (mic_id : String)
    (frame_20ms : List ℕ) (now : ℚ) : List MuxEffect :=
  if frame_20ms.length ≠ FRAME_SIZE_BYTES then []
  else
    match alookup mic_id sessions with
    | none => if hasListener then [.wakewordListener frame_20ms] else []
    | some session =>
      .sttPush frame_20ms ::
        (if now - session.start_time < 1/10 ∨ (⌊now * 10⌋ % 10 = 0) then
          [.publishStreamState mic_id "stt" session.uuid (some session.temp_id)]
        else [])

/-- Wakeword detection event (`WakeEvent` in
`services/voice_pipeline/wakeword_bus.py`). -/
structure WakeEvent where
  mic_id : String
  confidence : ℚ
  keyword : String
  timestamp : ℚ
  deriving DecidableEq, Repr

/-- Mutable state of `WakewordBus`: the collision window (seconds), the
recent-events list and the per-mic debounce timestamps. -/
structure BusState where
  collision_window : ℚ := 3/10
  recent_events : List WakeEvent := []
  last_emit_time : List (String × ℚ) := []
  deriving Repr

/-- `WakewordBus._resolve_collision`: sort by confidence descending; a
single event wins outright; a clear winner needs a confidence margin
above 0.1; otherwise the source falls back to the first sorted event
(the last-room tie-break is only described in a comment there). -/
def resolve_collision (events : List WakeEvent) : Option WakeEvent :=
  if events = [] then none
  else
    let events_sorted := sortDescWith (fun a b => decide (b.confidence < a.confidence)) events
    if events_sorted.length = 1 then events_sorted.head?
    else
      let top_conf := (events_sorted.head?.map (·.confidence)).getD 0
      let second_conf := ((events_sorted.drop 1).head?.map (·.confidence)).getD 0
      if (1/10 : ℚ) < top_conf - second_conf then events_sorted.head?
      else events_sorted.head?

/-- `WakewordBus.emit_wake`: per-mic 500ms debounce, append the event,
prune events outside the collision window, then either resolve a
collision (notifying only the winner of this call) or notify the new
event immediately. The returned list holds the events passed to
`_notify_subscribers` by this call. -/
def emit_wake (st : BusState) (mic_id : String) (confidence : ℚ)
    (keyword : String) (now : ℚ) : BusState × List WakeEvent :=
  let last_emit := (alookup mic_id st.last_emit_time).getD 0
  if now - last_emit < 1/2 then (st, [])
  else
    let event : WakeEvent := ⟨mic_id, confidence, keyword, now⟩
    let appended := st.recent_events ++ [event]
    let cutoff := now - st.collision_window
    let recent := appended.filter (fun e => cutoff < e.timestamp)
    let recent_in_window := recent.filter (fun e => now - e.timestamp ≤ st.collision_window)
    let st2 : BusState := { st with
      recent_events := recent
      last_emit_time := aupsert mic_id now st.last_emit_time }
    if 1 < recent_in_window.length then
      match resolve_collision recent_in_window with
      | some winner => (st2, [winner])
      | none => (st2, [])
    else (st2, [event])

end VoicePipeline

namespace ModeSwitching

/-- Enumeration of supported personas
(`orchestrator/mode_switching/state_machine.py`). -/
inductive PersonaState
  | HALSTON
  | SCARLET
  deriving DecidableEq, Repr

/-- The string value of a `PersonaState` enum member. -/
def PersonaState.value : PersonaState → String
  | .HALSTON => "halston"
  | .SCARLET => "scarlet"

/-- The Python enum member name of a `PersonaState`. -/
def PersonaState.label : PersonaState → String
  | .HALSTON => "HALSTON"
  | .SCARLET => "SCARLET"

/-- Normalised threat detection signal (`ThreatSignal`). -/
structure ThreatSignal where
  severity : ℚ
  source : String
  description : String := ""
  timestamp : ℚ := 0
  deriving DecidableEq, Repr

/-- Operator reassurance signal (`ReassuranceSignal`). -/
structure ReassuranceSignal where
  confidence : ℚ
  source : String
  timestamp : ℚ := 0
  deriving DecidableEq, Repr

/-- Tunable parameters of the persona state machine
(`ModeSwitchConfig`) with its pydantic defaults. -/
structure ModeSwitchConfig where
  escalate_threshold : ℚ := 3/5
  deescalate_threshold : ℚ := 1/4
  sustained_escalation_count : ℕ := 2
  sustained_reassurance_count : ℕ := 3
  lookback_window : ℕ := 10
  cooldown_seconds : ℚ := 30
  deriving Repr

/-- In-memory state of `PersonaStateMachine`; the signal deques carry at
most `lookback_window` elements. -/
structure PersonaStateMachine where
  config : ModeSwitchConfig
  state : PersonaState
  threat_signals : List ThreatSignal
  reassurance_signals : List ReassuranceSignal
  last_switch_time : ℚ
  manual_override : Option PersonaState
  deriving Repr

/-- `PersonaStateMachine.__init__`: empty windows, no override, and the
last-switch timestamp stamped with the construction time `now`. -/
def machineInit (config : ModeSwitchConfig) (state : PersonaState) (now : ℚ) :
    PersonaStateMachine :=
  { config := config
    state := state
    threat_signals := []
    reassurance_signals := []
    last_switch_time := now
    manual_override := none }

/-- Append to a `deque(maxlen=n)`: old elements fall off the left. -/
def dequeAppend {α : Type} (maxlen : ℕ) (xs : List α) (x : α) : List α :=
  let ys := xs ++ [x]
  ys.drop (ys.length - maxlen)

/-- The `state` property: manual override takes precedence. -/
def currentState (m : PersonaStateMachine) : PersonaState :=
  m.manual_override.getD m.state

/-- `PersonaStateMachine._should_escalate`. -/
def should_escalate (m : PersonaStateMachine) : Bool :=
  if m.threat_signals.length < m.config.sustained_escalation_count then false
  else
    let recent := m.threat_signals.drop
      (m.threat_signals.length - m.config.sustained_escalation_count)
    let high_severity := recent.filter (fun s => m.config.escalate_threshold ≤ s.severity)
    if high_severity.length < m.config.sustained_escalation_count then false
    else decide (m.config.escalate_threshold ≤
      ((recent.map (·.severity)).sum / (recent.length : ℚ)))

/-- `PersonaStateMachine._should_deescalate`. -/
def should_deescalate (m : PersonaStateMachine) : Bool :=
  if m.reassurance_signals.length < m.config.sustained_reassurance_count then false
  else
    let recent := m.reassurance_signals.drop
      (m.reassurance_signals.length - m.config.sustained_reassurance_count)
    let avg_confidence := (recent.map (·.confidence)).sum / (recent.length : ℚ)
    if avg_confidence < m.config.deescalate_threshold then false
    else if m.threat_signals = [] then true
    else decide (((m.threat_signals.map (·.severity)).sum /
      (m.threat_signals.length : ℚ)) ≤ m.config.deescalate_threshold)

/-- `PersonaStateMachine._evaluate_state` at time `now` (`monotonic()`):
manual override short-circuits; inside the cooldown window the machine
is frozen; otherwise escalate or de-escalate, clearing the opposing
window and stamping the switch time. -/
def evaluate_state (m : PersonaStateMachine) (now : ℚ) :
    PersonaState × PersonaStateMachine :=
  match m.manual_override with
  | some p => (p, m)
  | none =>
    if now - m.last_switch_time < m.config.cooldown_seconds then (m.state, m)
    else if should_escalate m then
      (.SCARLET, { m with
        state := .SCARLET
        last_switch_time := now
        reassurance_signals := [] })
    else if should_deescalate m then
      (.HALSTON, { m with
        state := .HALSTON
        last_switch_time := now
        threat_signals := [] })
    else (m.state, m)

/-- `PersonaStateMachine.register_threat`. -/
def register_threat (m : PersonaStateMachine) (sig : ThreatSignal) (now : ℚ) :
    PersonaState × PersonaStateMachine :=
  evaluate_state
    { m with threat_signals := dequeAppend m.config.lookback_window m.threat_signals sig }
    now

/-- `PersonaStateMachine.register_reassurance`. -/
def register_reassurance (m : PersonaStateMachine) (sig : ReassuranceSignal) (now : ℚ) :
    PersonaState × PersonaStateMachine :=
  evaluate_state
    { m with reassurance_signals :=
        dequeAppend m.config.lookback_window m.reassurance_signals sig }
    now

/-- `PersonaStateMachine.consume_bulk_signals`. -/
def consume_bulk_signals (m : PersonaStateMachine) (threats : List ThreatSignal)
    (reassurances : List ReassuranceSignal) (now : ℚ) :
    PersonaState × PersonaStateMachine :=
  evaluate_state
    { m with
      threat_signals :=
        threats.foldl (dequeAppend m.config.lookback_window) m.threat_signals
      reassurance_signals :=
        reassurances.foldl (dequeAppend m.config.lookback_window) m.reassurance_signals }
    now

/-- `PersonaStateMachine.set_manual_override`. -/
def set_manual_override (m : PersonaStateMachine) (persona : Option PersonaState)
    (now : ℚ) : PersonaStateMachine :=
  match persona with
  | some p => { m with manual_override := some p, state := p, last_switch_time := now }
  | none => { m with manual_override := none }

/-- A timed signal-registration operation against the state machine. -/
inductive SignalOp
  | threat (sig : ThreatSignal)
  | reassure (sig : ReassuranceSignal)
  | bulk (threats : List ThreatSignal) (reassurances : List ReassuranceSignal)

/-- Apply one timed signal operation. -/
def applyOp (m : PersonaStateMachine) : SignalOp × ℚ → PersonaStateMachine
  | (.threat sig, t) => (register_threat m sig t).2
  | (.reassure sig, t) => (register_reassurance m sig t).2
  | (.bulk ts rs, t) => (consume_bulk_signals m ts rs t).2

/-- Run a sequence of timed signal operations. -/
def runOps (m : PersonaStateMachine) (ops : List (SignalOp × ℚ)) : PersonaStateMachine :=
  ops.foldl applyOp m

end ModeSwitching

namespace SpeakerId

/-- Construction-time configuration of `IdentityResolver`
(`speakerid/identity_resolver.py`) with its defaults; the constructor
enforces `degrade_confidence <= min_voice_confidence` and both within
[0, 1]. -/
structure ResolverConfig where
  cache_ttl : ℚ := 180
  alias_ttl : ℚ := 604800
  min_voice_confidence : ℚ := 11/20
  degrade_confidence : ℚ := 7/20
  deriving Repr

/-- One identity record of the in-memory identity map:
`{role, aliases: {temp_id: last_seen_ts}, created_at}`. -/
structure IdentityData where
  role : String
  aliases : List (String × ℚ)
  created_at : ℚ
  deriving DecidableEq, Repr

/-- Mutable state of `IdentityResolver`: the lookup cache
(`temp_id -> (uuid, role, expiry)`), the identity map and the alias
index (`temp_id -> (uuid, last_seen)`); the on-disk persistence mirrors
`identities` and is not modelled separately. -/
structure ResolverState where
  cache : List (String × (String × String × ℚ))
  identities : List (String × IdentityData)
  alias_index : List (String × (String × ℚ))
  deriving Repr

/-- `IdentityResolver._lookup_alias`: a hit older than `alias_ttl` is
pruned from the alias index and from its identity record (persistence is
re-saved) and treated as a miss; otherwise the mapped uuid and role are
returned. The updated state is returned alongside. -/
def lookup_alias (cfg : ResolverConfig) (st : ResolverState)
    (speaker_temp_id : String) (now : ℚ) :
    Option (String × String) × ResolverState :=
  match alookup speaker_temp_id st.alias_index with
  | none => (none, st)
  | some (stable_uuid, last_seen) =>
    if cfg.alias_ttl < now - last_seen then
      (none,
        { st with
          alias_index := aremove speaker_temp_id st.alias_index
          identities :=
            match alookup stable_uuid st.identities with
            | some record =>
              aupsert stable_uuid
                { record with aliases := aremove speaker_temp_id record.aliases }
                st.identities
            | none => st.identities })
    else
      match alookup stable_uuid st.identities with
      | none => (none, st)
      | some record => (some (stable_uuid, record.role), st)

/-- `IdentityResolver._remember`: cache the binding with expiry
`now + cache_ttl`; when the identity record exists, refresh its alias
timestamp and the alias index. -/
def remember (cfg : ResolverConfig) (st : ResolverState)
    (speaker_temp_id stable_uuid role : String) (now : ℚ) : ResolverState :=
  let st1 := { st with
    cache := aupsert speaker_temp_id (stable_uuid, role, now + cfg.cache_ttl) st.cache }
  match alookup stable_uuid st1.identities with
  | none => st1
  | some record =>
    { st1 with
      identities := aupsert stable_uuid
        { record with aliases := aupsert speaker_temp_id now record.aliases }
        st1.identities
      alias_index := aupsert speaker_temp_id (stable_uuid, now) st1.alias_index }

/-- The cache-miss path of `IdentityResolver.resolve`: alias lookup,
confidence gating with guest degradation, and remembering a hit. -/
def resolve_uncached (cfg : ResolverConfig) (st : ResolverState)
    (speaker_temp_id : String) (voice_prob now : ℚ) :
    (Option String × String) × ResolverState :=
  let looked := lookup_alias cfg st speaker_temp_id now
  match looked.1 with
  | some (stable_uuid, mapped_role) =>
    if cfg.degrade_confidence ≤ voice_prob then
      let role := if voice_prob < cfg.min_voice_confidence then "guest" else mapped_role
      ((some stable_uuid, role), remember cfg looked.2 speaker_temp_id stable_uuid role now)
    else ((none, "guest"), looked.2)
  | none => ((none, "guest"), looked.2)

/-- `IdentityResolver.resolve`: serve unexpired cache entries, otherwise
fall back to the alias-lookup path. -/
def resolve (cfg : ResolverConfig) (st : ResolverState)
    (speaker_temp_id : String) (voice_prob now : ℚ) :
    (Option String × String) × ResolverState :=
  match alookup speaker_temp_id st.cache with
  | some (stable_uuid, role, expiry) =>
    if now < expiry then ((some stable_uuid, role), st)
    else resolve_uncached cfg st speaker_temp_id voice_prob now
  | none => resolve_uncached cfg st speaker_temp_id voice_prob now

/-- `IdentityResolver.register_identity`: upsert the identity record
(`role or "guest"`), stamp the alias, update the alias index, remember
in the cache, persist. -/
def register_identity (cfg : ResolverConfig) (st : ResolverState)
    (speaker_temp_id stable_uuid role : String) (now : ℚ) : ResolverState :=
  let safe_role := if role = "" then "guest" else role
  let record :=
    match alookup stable_uuid st.identities with
    | some r => r
    | none => { role := safe_role, aliases := [], created_at := now }
  let record2 := { record with
    role := safe_role
    aliases := aupsert speaker_temp_id now record.aliases }
  let st1 := { st with
    identities := aupsert stable_uuid record2 st.identities
    alias_index := aupsert speaker_temp_id (stable_uuid, now) st.alias_index }
  remember cfg st1 speaker_temp_id stable_uuid safe_role now

/-- `IdentityResolver.forget_identity`: drop the record and all its
aliases from cache and index; returns the alias count removed. -/
def forget_identity (st : ResolverState) (stable_uuid : String) :
    ℕ × ResolverState :=
  match alookup stable_uuid st.identities with
  | none => (0, st)
  | some record =>
    let st1 := { st with identities := aremove stable_uuid st.identities }
    let st2 := record.aliases.foldl
      (fun s p => { s with
        cache := aremove p.1 s.cache
        alias_index := aremove p.1 s.alias_index })
      st1
    (record.aliases.length, st2)

/-- Cache coherence at time `t`: every cache entry still live at `t` was
written together with an alias-index entry for the same uuid no more
than `cache_ttl` before the entry expires. This holds in the empty state
and is preserved by `resolve` and `register_identity` (see the lemmas
below); with `cache_ttl <= alias_ttl` it rules out serving an expired
alias from the cache. -/
def CacheAliasInv (cfg : ResolverConfig) (st : ResolverState) (t : ℚ) : Prop :=
  ∀ temp_id stable_uuid role expiry,
    alookup temp_id st.cache = some (stable_uuid, role, expiry) → t < expiry →
    ∃ last_seen,
      alookup temp_id st.alias_index = some (stable_uuid, last_seen) ∧
      expiry ≤ last_seen + cfg.cache_ttl

end SpeakerId

namespace Orchestration

/-- Session state shared across devices (`SessionState` in
`orchestrator/context/session_state.py`). -/
structure SessionState where
  speaker_uuid : Option String
  last_trust : ℚ := 0
  last_persona : String := "HALSTON"
  last_seen_ts : ℚ := 0
  conversation_turn : ℤ := 0
  context_mode : ContextMode := .home
  voice_confidence : Option ℚ := none
  face_confidence : Option ℚ := none
  reassurance : ℚ := 0
  threat : ℚ := 0
  last_intent : Option String := none
  last_response : Option String := none
  deriving Repr

/-- Outcome of lightweight keyword intent parsing (`IntentClassification`
in `orchestrator/routing/message_router.py`); slot values are modelled
as strings. -/
structure IntentClassification where
  intent : Option String
  slots : List (String × String)
  sensitive : Bool
  persona_bias : String
  confidence : ℚ
  deriving Repr

/-- Errors escaping `Orchestrator.process`: the `ValueError` for
whitespace-only input, or an exception raised by a collaborator. -/
inductive OrchError (E : Type)
  | emptyInput
  | collab (e : E)
  deriving Repr

/-- The injected dependencies of the orchestrator
(`OrchestratorDependencies`, session store, persona agents and optional
routers), modelled as functions whose failures are `Except` errors.
`select_persona` stands for `_select_persona` (which drives the injected
state machine and telemetry), `render` for `_render_response` (which
drives the persona agents), and `route` for the optional multi-room
routing block. Telemetry publishes (`EventBus.publish`) swallow their
own exceptions in the source and are not modelled. -/
structure OrchDeps (E : Type) where
  resolve : String → ℚ → Except E (Option String × String)
  load : Option String → String → Except E SessionState
  score : TrustScoring.TrustInputs → Option Role → Except E TrustScoring.TrustDecision
  select_persona : SessionState → TrustScoring.TrustDecision →
    Except E ModeSwitching.PersonaState
  classify : String → Role → Except E IntentClassification
  handle : String → List (String × String) → HAAdapter.IntentContext →
    Except E HAAdapter.IntentResult
  render : ModeSwitching.PersonaState → String → IntentClassification →
    Option HAAdapter.IntentResult → Except E String
  save : SessionState → Option String → String → Except E Unit
  route : Option (Option String → String → Option String → Except E Unit) := none

/-- `Orchestrator._normalize_role`. -/
def normalize_role (hint : String) : Option Role :=
  if hint = "owner" then some Role.owner
  else if hint = "household" then some Role.household
  else if hint = "guest" then some Role.guest
  else if hint = "unknown" then some Role.unknown
  else none

/-- The string form of a `Role` for `IntentContext.role`. -/
def roleToStr : Role → String
  | .owner => "owner"
  | .household => "household"
  | .guest => "guest"
  | .unknown => "unknown"

/-- The string form of a `ContextMode` for `IntentContext.mode`. -/
def contextModeStr : ContextMode → String
  | .home => "home"
  | .away => "away"
  | .night => "night"
  | .maintenance => "maintenance"
  | .incident => "incident"

/-- The generic failure produced by the `try` boundary of
`Orchestrator._dispatch_intent`. -/
def generic_dispatch_failure : HAAdapter.IntentResult :=
  { ok := false, spoken := "I encountered an internal error handling that request." }

/-- `Orchestrator._dispatch_intent`: build the `IntentContext` and call
the intent router; any exception becomes the generic failure result. -/
def dispatch_intent {E : Type} (deps : OrchDeps E)
    (classification : IntentClassification)
    (decision : TrustScoring.TrustDecision) (session : SessionState)
    (speaker_temp_id : String) (persona : ModeSwitching.PersonaState) :
    HAAdapter.IntentResult :=
  let context : HAAdapter.IntentContext :=
    { role := roleToStr decision.role
      allow_sensitive := decision.allow_sensitive
      mode := contextModeStr session.context_mode
      speaker_uuid := session.speaker_uuid
      session_id := some speaker_temp_id
      persona := persona.value }
  match deps.handle (classification.intent.getD "") classification.slots context with
  | .ok result => result
  | .error _ => generic_dispatch_failure

/-- `Orchestrator.process` from `orchestrator/orchestrator.py`: raise on
whitespace-only input, then resolve identity (with `voice_prob=1.0`),
load the session, build the trust inputs, score, select the persona,
classify, dispatch inside the `try` boundary when an intent is present,
render, save the bumped session, and run the optional multi-room
routing block whose failures are swallowed. Only the dispatch and
routing steps are wrapped; every other collaborator error propagates. -/
def process {E : Type} (deps : OrchDeps E) (user_text speaker_temp_id : String)
    (room_hint : Option String) (now : ℚ) :
    Except (OrchError E) (String × String) :=
  if py_strip user_text = "" then .error .emptyInput
  else
    match deps.resolve speaker_temp_id 1 with
    | .error e => .error (.collab e)
    | .ok (stable_uuid, role_hint) =>
      match deps.load stable_uuid speaker_temp_id with
      | .error e => .error (.collab e)
      | .ok session =>
        let inputs : TrustScoring.TrustInputs :=
          { speaker_id := stable_uuid
            voice_match := session.voice_confidence
            face_match := session.face_confidence
            prior_score := session.last_trust
            context_mode := session.context_mode
            reassurance := session.reassurance
            threat := session.threat
            last_update_ts := session.last_seen_ts
            now_ts := now }
        match deps.score inputs (normalize_role role_hint) with
        | .error e => .error (.collab e)
        | .ok decision =>
          match deps.select_persona session decision with
          | .error e => .error (.collab e)
          | .ok persona =>
            match deps.classify user_text decision.role with
            | .error e => .error (.collab e)
            | .ok classification =>
              let intent_result : Option HAAdapter.IntentResult :=
                match classification.intent with
                | some _ => some (dispatch_intent deps classification decision
                    session speaker_temp_id persona)
                | none => none
              match deps.render persona user_text classification intent_result with
              | .error e => .error (.collab e)
              | .ok response =>
                let session2 := { session with
                  last_trust := decision.score
                  last_persona := persona.label
                  last_intent := classification.intent
                  last_response := some response
                  conversation_turn := session.conversation_turn + 1 }
                match deps.save session2 stable_uuid speaker_temp_id with
                | .error e => .error (.collab e)
                | .ok _ =>
                  let _routing : Unit :=
                    match deps.route with
                    | none => ()
                    | some r =>
                      match r stable_uuid speaker_temp_id room_hint with
                      | .ok _ => ()
                      | .error _ => ()
                  .ok (response, persona.label)

/-- A dependency set whose identity resolution always raises and whose
remaining collaborators are total, witnessing the propagation of
unwrapped collaborator errors. -/
def failing_resolve_deps : OrchDeps Unit :=
  { resolve := fun _ _ => .error ()
    load := fun u _ => .ok { speaker_uuid := u }
    score := fun _ _ =>
      .ok { score := 0, role := .guest, allow_sensitive := false, persona_bias := .neutral }
    select_persona := fun _ _ => .ok .HALSTON
    classify := fun _ _ =>
      .ok { intent := none, slots := [], sensitive := false, persona_bias := "HALSTON", confidence := 0 }
    handle := fun _ _ _ => .ok { ok := true, spoken := "" }
    render := fun _ _ _ _ => .ok "ok"
    save := fun _ _ _ => .ok () }

end Orchestration

namespace Media

/-- A media candidate or history item as consumed by the scoring layer of
`services/media/recommender.py`: the raw TMDB/Plex dictionaries are
normalised by `_normalize_tmdb` and `_candidate_features` into exactly
these fields (`tmdb_id`, genres, networks, runtime minutes, release
year, popularity, source); items enter the model already carrying them,
the HTTP clients being out of scope. -/
structure MediaItem where
  tmdb_id : Option ℤ := none
  title : String := ""
  genres : List String := []
  networks : List String := []
  runtime : Option ℤ := none
  release_year : Option ℤ := none
  popularity : ℚ := 0
  source : String := ""
  deriving DecidableEq, Repr

/-- A `collections.Counter` increment (`features[key] += v`). -/
def counterAdd (c : List (String × ℚ)) (k : String) (v : ℚ) : List (String × ℚ) :=
  match alookup k c with
  | some _ => c.map (fun p => if p.1 = k then (p.1, p.2 + v) else p)
  | none => c ++ [(k, v)]

/-- `TasteProfile._runtime_bucket` (`services/media/taste_profile.py`). -/
def runtime_bucket : Option ℤ → Option String
  | none => none
  | some minutes =>
    if minutes < 30 then some "short"
    else if minutes < 60 then some "medium"
    else if minutes < 110 then some "feature"
    else some "epic"

/-- `TasteProfile._release_bucket`. -/
def release_bucket : Option ℤ → Option String
  | none => none
  | some y =>
    if y < 2000 then some "classic"
    else if y < 2010 then some "mid"
    else if y < 2020 then some "recent"
    else some "new"

/-- `TasteProfile._ingest_item`: weighted feature counts for genres
(+1), networks (+0.5), pace bucket (+0.4) and year bucket (+0.6). -/
def ingest_item (features : List (String × ℚ)) (item : MediaItem) : List (String × ℚ) :=
  let features := item.genres.foldl
    (fun acc genre => counterAdd acc ("genre:" ++ py_lower genre) 1) features
  let features := item.networks.foldl
    (fun acc network => counterAdd acc ("network:" ++ py_lower network) (1/2)) features
  let features :=
    match runtime_bucket item.runtime with
    | some bucket => counterAdd features ("pace:" ++ bucket) (2/5)
    | none => features
  match release_bucket item.release_year with
  | some bucket => counterAdd features ("year:" ++ bucket) (3/5)
  | none => features

/-- `TasteProfile._build_profile`: normalise the accumulated feature
counts into a distribution; empty evidence yields the empty profile. -/
def build_profile (history : List MediaItem) : List (String × ℚ) :=
  let features := history.foldl ingest_item []
  let total := (features.map (·.2)).sum
  if total = 0 then [] else features.map (fun p => (p.1, p.2 / total))

/-- `TasteProfile.score`: 0.5 on an empty profile, 0.3 for a candidate
with no features, otherwise the clamped sum of the profile weights of
the candidate features. -/
def taste_score (candidate : MediaItem) (profile : List (String × ℚ)) : ℚ :=
  if profile = [] then 1/2
  else
    let candidate_features := ingest_item [] candidate
    if candidate_features = [] then 3/10
    else
      let numerator :=
        (candidate_features.map (fun p => (alookup p.1 profile).getD 0)).sum
      max 0 (min 1 numerator)

/-- Python `str.title()` (approximated as capitalising each alphabetic
run), used only inside spoken `reason` strings. -/
def py_title_aux : Bool → List Char → List Char
  | _, [] => []
  | prevAlpha, c :: cs =>
    let letter := c.isAlpha
    (if letter then (if prevAlpha then c.toLower else c.toUpper) else c) ::
      py_title_aux letter cs

/-- Python `str.title()` over a string. -/
def py_title (s : String) : String := ⟨py_title_aux false s.data⟩

/-- `TasteProfile._feature_phrase`. -/
def feature_phrase (feature : String) : String :=
  match feature.splitOn ":" with
  | [] => "It\x27s aligned with your viewing profile."
  | kind :: rest =>
    let value := String.intercalate ":" rest
    if kind = "genre" then
      "It leans into " ++ (⟨value.data.map (fun c => if c = '-' then ' ' else c)⟩ : String) ++
        " stories."
    else if kind = "network" then
      "It comes from " ++ py_title value ++ ", a frequent favorite."
    else if kind = "pace" then
      if value = "short" then "quick episodes"
      else if value = "medium" then "snappy pacing"
      else if value = "feature" then "feature-length runs"
      else if value = "epic" then "long-form epics"
      else "It matches your pacing preferences."
    else if kind = "year" then
      let era :=
        if value = "classic" then "classic era"
        else if value = "mid" then "2000s era"
        else if value = "recent" then "recent releases"
        else if value = "new" then "brand new releases"
        else value
      "It fits your taste for " ++ era ++ "."
    else "It\x27s aligned with your viewing profile."

/-- `TasteProfile.explain`: the top two matching features (profile
weight descending, then feature-name descending, matching the Python
tuple sort with `reverse=True`), rendered as phrases. -/
def explain (candidate : MediaItem) (profile : List (String × ℚ)) : String :=
  if profile = [] then "These are popular picks right now."
  else
    let candidate_features := ingest_item [] candidate
    let scored : List (ℚ × String) := (candidate_features.filter
        (fun p => (alookup p.1 profile).isSome)).map
      (fun p => ((alookup p.1 profile).getD 0, p.1))
    let scored_sorted := sortDescWith
      (fun a b => decide (b.1 < a.1) || (decide (a.1 = b.1) && decide (b.2 < a.2))) scored
    if scored_sorted = [] then
      "It offers something a little different from your recent viewing."
    else
      String.intercalate " and "
        ((scored_sorted.take 2).map (fun p => feature_phrase p.2))

/-- `MediaRecommender._score_candidate`: taste score plus a novelty
bonus for low popularity and a source bonus for continue-watching,
clamped to [0, 1]. -/
def score_candidate (candidate : MediaItem) (profile : List (String × ℚ)) : ℚ :=
  let base := taste_score candidate profile
  let novelty := if candidate.popularity < 10 then (1/10 : ℚ) else 0
  let source_bonus := if candidate.source = "continue" then (1/5 : ℚ) else 0
  max 0 (min 1 (base + novelty + source_bonus))

/-- One entry of the list returned by `recommend_for_user`: the
candidate with its attached `score`, `reason` and `personalized`
fields. -/
structure RankedCandidate where
  item : MediaItem
  score : ℚ
  reason : String
  personalized : Bool
  deriving DecidableEq, Repr

/-- The `watched_tmdb_ids` set of `recommend_for_user`: ids of history
items whose `tmdb_id` is truthy (present and non-zero). -/
def watchedIds (history : List MediaItem) : List ℤ :=
  (history.filterMap (·.tmdb_id)).filter (fun tmdb_id => tmdb_id ≠ 0)

/-- Python `list(history)[-n:]` used by `TasteProfile.__init__`
(`max_items = 120`). -/
def lastN {α : Type} (n : ℕ) (xs : List α) : List α := xs.drop (xs.length - n)

/-- The scored entry `(score, candidate-with-attachments)` appended by
the loop of `recommend_for_user` for a kept candidate. -/
def rank_candidate (profile : List (String × ℚ)) (personalized : Bool)
    (candidate : MediaItem) : ℚ × RankedCandidate :=
  let score := score_candidate candidate profile
  (score,
    { item := candidate
      score := score
      reason := explain candidate profile
      personalized := personalized })

/-- One iteration of the scoring loop of `recommend_for_user`: skip a
missing or watched `tmdb_id`, otherwise append the ranked candidate. -/
def filter_and_score (watched_tmdb_ids : List ℤ) (profile : List (String × ℚ))
    (personalized : Bool) (acc : List (ℚ × RankedCandidate))
    (candidate : MediaItem) : List (ℚ × RankedCandidate) :=
  match candidate.tmdb_id with
  | none => acc
  | some tmdb_id =>
    if watched_tmdb_ids.contains tmdb_id then acc
    else acc ++ [rank_candidate profile personalized candidate]

/-- `MediaRecommender.recommend_for_user` from
`services/media/recommender.py`: gather history (movies plus shows),
build the profile from the last 120 items, drop candidates with a
missing `tmdb_id` or a watched one, attach score/reason/personalized,
sort by score descending (stable) and take the top `k`. The candidate
pool and the history are passed in as the results of the external Plex
and TMDB clients (`_build_candidate_pool`). -/
def recommend_for_user (user_uuid : Option String)
    (history_movies history_shows : List MediaItem)
    (candidate_pool : List MediaItem) (k : ℕ) : List RankedCandidate :=
  let history := history_movies ++ history_shows
  let personalized := user_uuid.isSome && decide (history ≠ [])
  let profile := build_profile (lastN 120 history)
  let watched_tmdb_ids := watchedIds history
  let scored : List (ℚ × RankedCandidate) :=
    candidate_pool.foldl (filter_and_score watched_tmdb_ids profile personalized) []
  let scored_sorted := sortDescWith (fun a b => decide (b.1 < a.1)) scored
  (scored_sorted.take k).map (·.2)

end Media

-- ===================================================================
-- THEOREMS
-- ===================================================================

namespace TrustScoring

/-- Claim C1: for every trust input and identity role hint, the decision
returned by `TrustScorer.score` has `allow_sensitive = true` iff either
the computed role is owner/household and the context mode is
home/maintenance, or the context is night, the role is owner and the
voice match is at least 0.80; in particular `allow_sensitive` implies
the role is owner or household. -/
theorem trust_allow_sensitive_characterisation
    (inp : TrustInputs) (hint : Option Role) :
    ((TrustScorer.score inp hint).allow_sensitive = true ↔
      ((((TrustScorer.score inp hint).role = Role.owner ∨
          (TrustScorer.score inp hint).role = Role.household) ∧
        (inp.context_mode = ContextMode.home ∨
          inp.context_mode = ContextMode.maintenance)) ∨
       (inp.context_mode = ContextMode.night ∧
        (TrustScorer.score inp hint).role = Role.owner ∧
        (4/5 : ℚ) ≤ voiceOf inp))) ∧
    ((TrustScorer.score inp hint).allow_sensitive = true →
      (TrustScorer.score inp hint).role = Role.owner ∨
      (TrustScorer.score inp hint).role = Role.household) := by
  have hrole : (TrustScorer.score inp hint).role = roleOf inp hint := rfl
  have hallow : (TrustScorer.score inp hint).allow_sensitive =
      allowSensitiveOf inp hint := rfl
  rw [hrole, hallow]
  unfold allowSensitiveOf
  by_cases hnight : inp.context_mode = ContextMode.night ∧
      roleOf inp hint = Role.owner ∧ (4/5 : ℚ) ≤ voiceOf inp
  · rw [if_pos hnight]
    constructor
    · constructor
      · intro _
        exact Or.inr hnight
      · intro _
        rfl
    · intro _
      exact Or.inl hnight.2.1
  · rw [if_neg hnight]
    simp only [decide_eq_true_eq]
    constructor
    · constructor
      · intro h
        exact Or.inl h
      · intro h
        rcases h with h | h
        · exact h
        · exact absurd h hnight
    · intro h
      exact h.1

/-- Claim C1 witness: an owner at home with high voice confidence gets
`allow_sensitive = true` through the characterisation. -/
theorem trust_allow_sensitive_characterisation_witness :
    (TrustScorer.score
      { speaker_id := some "u", voice_match := some (19/20),
        context_mode := ContextMode.home } (some Role.owner)).allow_sensitive = true := by
  have h := trust_allow_sensitive_characterisation
    { speaker_id := some "u", voice_match := some (19/20),
      context_mode := ContextMode.home } (some Role.owner)
  refine h.1.mpr (Or.inl ⟨Or.inl ?_, Or.inl rfl⟩)
  show roleOf _ _ = _
  norm_num [roleOf, scoreValue, hysteresisScore, preScore, voiceOf, faceOf,
    pyOrZero, contextPenalty, BASE_GUEST, OWNER_THRESH, HOUSEHOLD_THRESH,
    GUEST_MAX, COOLDOWN_SEC, HYSTERESIS_BAND]

/-- Claim C9: the role in a decision returned by `TrustScorer.score` is
always one of owner, household or guest, never the declared fourth
member `unknown` of the `Role` type. -/
theorem trust_role_never_unknown
    (inp : TrustInputs) (hint : Option Role) :
    ((TrustScorer.score inp hint).role = Role.owner ∨
     (TrustScorer.score inp hint).role = Role.household ∨
     (TrustScorer.score inp hint).role = Role.guest) ∧
    (TrustScorer.score inp hint).role ≠ Role.unknown := by
  have hrole : (TrustScorer.score inp hint).role = roleOf inp hint := rfl
  have hcases : roleOf inp hint = Role.owner ∨ roleOf inp hint = Role.household ∨
      roleOf inp hint = Role.guest := by
    unfold roleOf
    by_cases h1 : OWNER_THRESH ≤ scoreValue inp
    · by_cases h2 : hint.getD Role.household = Role.owner <;> simp [h1, h2]
    · by_cases h3 : HOUSEHOLD_THRESH ≤ scoreValue inp
      · simp [h1, h3]
      · by_cases h4 : scoreValue inp ≤ GUEST_MAX <;> simp [h1, h3, h4]
  rw [hrole]
  refine ⟨hcases, ?_⟩
  rcases hcases with h | h | h <;> simp [h]

end TrustScoring

namespace VoicePipeline

/-- Claim C3: `can_speak_in` returns false in privacy zones for every
persona; in DND zones (that are not privacy zones) it returns true iff
the persona is SCARLET; in all other rooms it returns true. -/
theorem can_speak_in_zone_policy (reg : RoomRegistryZones)
    (room persona : String) :
    (is_privacy_zone reg room = true → can_speak_in reg room persona = false) ∧
    (is_privacy_zone reg room = false → is_dnd_zone reg room = true →
      (can_speak_in reg room persona = true ↔ persona = "SCARLET")) ∧
    (is_privacy_zone reg room = false → is_dnd_zone reg room = false →
      can_speak_in reg room persona = true) := by
  refine ⟨?_, ?_, ?_⟩
  · intro h
    simp [can_speak_in, h]
  · intro h1 h2
    simp [can_speak_in, h1, h2]
  · intro h1 h2
    simp [can_speak_in, h1, h2]

/-- Claim C3 witness: with privacy zone `cinema` and DND zone `study`,
speech is denied in the cinema for both personas, allowed in the study
only for SCARLET, and allowed in the lounge. -/
theorem can_speak_in_zone_policy_witness :
    can_speak_in ⟨["cinema"], ["study"]⟩ "cinema" "SCARLET" = false ∧
    can_speak_in ⟨["cinema"], ["study"]⟩ "cinema" "HALSTON" = false ∧
    can_speak_in ⟨["cinema"], ["study"]⟩ "study" "SCARLET" = true ∧
    can_speak_in ⟨["cinema"], ["study"]⟩ "study" "HALSTON" ≠ true ∧
    can_speak_in ⟨["cinema"], ["study"]⟩ "lounge" "HALSTON" = true := by
  refine ⟨?_, ?_, ?_, ?_, ?_⟩
  · exact (can_speak_in_zone_policy ⟨["cinema"], ["study"]⟩ "cinema" "SCARLET").1 (by decide)
  · exact (can_speak_in_zone_policy ⟨["cinema"], ["study"]⟩ "cinema" "HALSTON").1 (by decide)
  · exact ((can_speak_in_zone_policy ⟨["cinema"], ["study"]⟩ "study" "SCARLET").2.1
      (by decide) (by decide)).mpr rfl
  · intro h
    exact absurd (((can_speak_in_zone_policy ⟨["cinema"], ["study"]⟩ "study" "HALSTON").2.1
      (by decide) (by decide)).mp h) (by decide)
  · exact (can_speak_in_zone_policy ⟨["cinema"], ["study"]⟩ "lounge" "HALSTON").2.2
      (by decide) (by decide)

end VoicePipeline

namespace HAAdapter

/-- Claim C2: for a sensitive intent (`unlock_door`, `open_garage`,
`disarm_alarm`) with `allow_sensitive = false`, `IntentRouter.handle`
returns the denial `IntentResult{ok: false, spoken: "That function is
not available right now."}` and publishes no service call to the
home-automation bridge. -/
theorem sensitive_intent_denied (media : Option MediaHandler)
    (svc : ServiceCall → Bool) (intent : String) (slots : Slots)
    (ctx : IntentContext)
    (hintent : intent = "unlock_door" ∨ intent = "open_garage" ∨
      intent = "disarm_alarm")
    (hallow : ctx.allow_sensitive = false) :
    handle media svc intent slots ctx =
      ({ ok := false, spoken := "That function is not available right now." }, []) := by
  rcases hintent with rfl | rfl | rfl
  · have hn : py_lower (py_strip "unlock_door") = "unlock_door" := by decide
    unfold handle
    rw [hn, hallow]
    simp [deny]
  · have hn : py_lower (py_strip "open_garage") = "open_garage" := by decide
    unfold handle
    rw [hn, hallow]
    simp [deny]
  · have hn : py_lower (py_strip "disarm_alarm") = "disarm_alarm" := by decide
    unfold handle
    rw [hn, hallow]
    simp [deny]

/-- Claim C2 witness: a guest context with `allow_sensitive = false`
asking to unlock the door is denied and no service call is recorded. -/
theorem sensitive_intent_denied_witness :
    handle none (fun _ => true) "unlock_door" [] { role := "guest" } =
      ({ ok := false, spoken := "That function is not available right now." }, []) :=
  sensitive_intent_denied none (fun _ => true) "unlock_door" []
    { role := "guest" } (Or.inl rfl) rfl

end HAAdapter

namespace VoicePipeline

/-- Claim C4: when a mic has no active session in the multiplexer, a
pushed frame is never forwarded to STT: the push either produces no
effect (wrong size or no listener) or only hands the frame to the
wakeword listener; no `sttPush` effect ever occurs for that mic. -/
theorem input_mux_single_stream (hasListener : Bool) (sessions : MuxState)
    (mic_id : String) (frame : List ℕ) (now : ℚ)
    (h : alookup mic_id sessions = none) :
    (∀ f, MuxEffect.sttPush f ∉ push hasListener sessions mic_id frame now) ∧
    (push hasListener sessions mic_id frame now = [] ∨
     push hasListener sessions mic_id frame now = [MuxEffect.wakewordListener frame]) := by
  unfold push
  rw [h]
  constructor
  · intro f
    split_ifs <;> simp
  · split_ifs <;> simp

/-- Claim C4 witness: with no sessions at all, a well-sized frame pushed
from the kitchen mic never reaches STT. -/
theorem input_mux_single_stream_witness :
    alookup "mic_kitchen_1" ([] : MuxState) = none ∧
    MuxEffect.sttPush (List.replicate 640 0) ∉
      push true [] "mic_kitchen_1" (List.replicate 640 0) 5 :=
  ⟨rfl, (input_mux_single_stream true [] "mic_kitchen_1"
    (List.replicate 640 0) 5 rfl).1 (List.replicate 640 0)⟩

/-- Claim C5 (code bug): two wake events from different mics inside the
300ms collision window produce two subscriber notifications, not the
one notification asserted by the spec and by the repository test
`test_wakeword_collision_higher_confidence_wins`: the first emit
notifies its own event immediately, and the second emit notifies the
collision winner again. -/
theorem wakeword_collision_double_notification :
    (emit_wake {} "mic_1" (9/10) "halcyon" 1).2 =
      [⟨"mic_1", 9/10, "halcyon", 1⟩] ∧
    (emit_wake (emit_wake {} "mic_1" (9/10) "halcyon" 1).1
        "mic_2" (6/10) "halcyon" (11/10)).2 =
      [⟨"mic_1", 9/10, "halcyon", 1⟩] ∧
    (emit_wake {} "mic_1" (9/10) "halcyon" 1).2.length +
      (emit_wake (emit_wake {} "mic_1" (9/10) "halcyon" 1).1
        "mic_2" (6/10) "halcyon" (11/10)).2.length = 2 := by
  norm_num [emit_wake, resolve_collision, sortDescWith, insertDescWith,
    alookup, aupsert, List.filter, List.foldl]
  simp
  norm_num

end VoicePipeline

namespace ModeSwitching

/-- Inside the cooldown window with no manual override, an evaluation
returns the machine unchanged. -/
theorem evaluate_state_frozen (m : PersonaStateMachine) (now : ℚ)
    (hov : m.manual_override = none)
    (hcd : now - m.last_switch_time < m.config.cooldown_seconds) :
    evaluate_state m now = (m.state, m) := by
  unfold evaluate_state
  rw [hov]
  rw [if_pos hcd]

/-- One signal operation inside the cooldown window preserves the
state, the last-switch time, the absent override and the config. -/
theorem applyOp_frozen (m : PersonaStateMachine) (op : SignalOp × ℚ) (t0 : ℚ)
    (hov : m.manual_override = none) (hls : m.last_switch_time = t0)
    (hcd : op.2 - t0 < m.config.cooldown_seconds) :
    (applyOp m op).state = m.state ∧ (applyOp m op).last_switch_time = t0 ∧
    (applyOp m op).manual_override = none ∧ (applyOp m op).config = m.config := by
  rcases op with ⟨op, t⟩
  cases op <;>
    · simp only [applyOp, register_threat, register_reassurance, consume_bulk_signals]
      rw [evaluate_state_frozen _ t (by simpa using hov) (by simpa [hls] using hcd)]
      simp [hls, hov]

/-- Claim C10: for `cooldown_seconds` after construction, no sequence of
registered threat or reassurance signals (single or bulk) changes the
machine state, because `__init__` stamps the last-switch time with the
construction time; absent a manual override the state stays at its
initial value. -/
theorem persona_machine_frozen_after_construction
    (cfg : ModeSwitchConfig) (st0 : PersonaState) (t0 : ℚ)
    (ops : List (SignalOp × ℚ))
    (h : ∀ p ∈ ops, p.2 - t0 < cfg.cooldown_seconds) :
    (runOps (machineInit cfg st0 t0) ops).state = st0 ∧
    currentState (runOps (machineInit cfg st0 t0) ops) = st0 := by
  have key : ∀ (l : List (SignalOp × ℚ)) (m : PersonaStateMachine),
      m.config = cfg → m.manual_override = none → m.last_switch_time = t0 →
      m.state = st0 → (∀ p ∈ l, p.2 - t0 < cfg.cooldown_seconds) →
      (runOps m l).state = st0 ∧ (runOps m l).manual_override = none := by
    intro l
    induction l with
    | nil =>
      intro m _ h2 _ h4 _
      exact ⟨h4, h2⟩
    | cons p rest ih =>
      intro m h1 h2 h3 h4 h5
      have hstep := applyOp_frozen m p t0 h2 h3 (by rw [h1]; exact h5 p (List.mem_cons_self p rest))
      have hrun : runOps m (p :: rest) = runOps (applyOp m p) rest := rfl
      rw [hrun]
      exact ih (applyOp m p) (hstep.2.2.2.trans h1) hstep.2.2.1 hstep.2.1
        (hstep.1.trans h4) (fun q hq => h5 q (List.mem_cons_of_mem p hq))
  have hm := key ops (machineInit cfg st0 t0) rfl rfl rfl rfl h
  refine ⟨hm.1, ?_⟩
  unfold currentState
  rw [hm.2]
  exact hm.1

/-- Claim C10 witness: with the default config, two maximum-severity
threats at 5s and 10s after construction leave the machine in HALSTON
(outside the cooldown the same two signals would escalate). -/
theorem persona_machine_frozen_after_construction_witness :
    (runOps (machineInit {} PersonaState.HALSTON 0)
      [(SignalOp.threat { severity := 1, source := "sensor" }, 5), (SignalOp.threat { severity := 1, source := "sensor" }, 10)]).state =
      PersonaState.HALSTON :=
  (persona_machine_frozen_after_construction {} PersonaState.HALSTON 0
    [(SignalOp.threat { severity := 1, source := "sensor" }, 5), (SignalOp.threat { severity := 1, source := "sensor" }, 10)]
    (by intro p hp; fin_cases hp <;> norm_num)).1

end ModeSwitching

/-- Lookup after removal: the removed key misses, others are unchanged. -/
theorem alookup_aremove {α : Type} (k j : String) (l : List (String × α)) :
    alookup j (aremove k l) = if j = k then none else alookup j l := by
  induction l with
  | nil => simp [aremove, alookup]
  | cons p rest ih =>
    simp only [aremove, alookup]
    by_cases h1 : p.1 = k
    · rw [if_pos h1, ih]
      by_cases h2 : j = k
      · simp [h2]
      · rw [if_neg h2, if_neg h2]
        have hpj : ¬ p.1 = j := fun hh => h2 (hh ▸ h1)
        simp [alookup, hpj]
  
    · rw [if_neg h1]
      simp only [alookup]
      by_cases h3 : p.1 = j
      · have hj : ¬ j = k := fun hh => h1 (h3.trans hh)
        simp [h3, hj]
      · simp [h3, ih]

/-- Lookup after upsert: the upserted key hits the new value, others are
unchanged. -/
theorem alookup_aupsert {α : Type} (k j : String) (v : α) (l : List (String × α)) :
    alookup j (aupsert k v l) = if j = k then some v else alookup j l := by
  induction l with
  | nil =>
    by_cases h : j = k
    · simp [aupsert, alookup, h]
    · have hkj : ¬ k = j := fun hh => h hh.symm
      simp [aupsert, alookup, h, hkj]
  | cons p rest ih =>
    by_cases h1 : p.1 = k
    · by_cases h2 : j = k
      · simp [aupsert, alookup, h1, h2]
      · have hk : ¬ k = j := fun hh => h2 hh.symm
        have hpj : ¬ p.1 = j := by rw [h1]; exact hk
        simp [aupsert, alookup, h1, h2, hk, hpj]
    · by_cases h3 : p.1 = j
      · have hj : ¬ j = k := fun hh => h1 (h3.trans hh)
        simp [aupsert, alookup, h1, h3, hj]
      · simp [aupsert, alookup, h1, h3, ih]


namespace SpeakerId

/-- The empty resolver state satisfies cache coherence at any time. -/
theorem cacheAliasInv_empty (cfg : ResolverConfig) (t : ℚ) :
    CacheAliasInv cfg ⟨[], [], []⟩ t := by
  intro temp_id stable_uuid role expiry hc _
  simp [alookup] at hc

/-- Cache coherence is monotone in time. -/
theorem cacheAliasInv_mono (cfg : ResolverConfig) (st : ResolverState)
    (t u : ℚ) (h : CacheAliasInv cfg st t) (htu : t ≤ u) :
    CacheAliasInv cfg st u := by
  intro temp_id stable_uuid role expiry hc hlt
  exact h temp_id stable_uuid role expiry hc (lt_of_le_of_lt htu hlt)

/-- `remember` preserves cache coherence when the identity record
exists (as it does on every call site of `_remember`). -/
theorem remember_preserves_inv (cfg : ResolverConfig) (st : ResolverState)
    (temp_id stable_uuid role : String) (now : ℚ)
    (h : CacheAliasInv cfg st now)
    (record : IdentityData)
    (hrec : alookup stable_uuid st.identities = some record) :
    CacheAliasInv cfg (remember cfg st temp_id stable_uuid role now) now := by
  unfold remember
  simp only [hrec]
  intro t u r e hc hlt
  rw [alookup_aupsert] at hc
  by_cases ht : t = temp_id
  · rw [if_pos ht] at hc
    injection hc with hc
    simp only [Prod.mk.injEq] at hc
    obtain ⟨hu, _, he⟩ := hc
    refine ⟨now, ?_, ?_⟩
    · rw [alookup_aupsert, if_pos ht, hu]
    · rw [← he]
  · rw [if_neg ht] at hc
    obtain ⟨ls, hl, hle⟩ := h t u r e hc hlt
    refine ⟨ls, ?_, hle⟩
    rw [alookup_aupsert, if_neg ht]
    exact hl

/-- `lookup_alias` preserves cache coherence (given
`cache_ttl <= alias_ttl`): the only mutation is pruning an expired
alias, whose cache entry, if any, must itself already be expired. -/
theorem lookup_alias_preserves_inv (cfg : ResolverConfig) (st : ResolverState)
    (temp_id : String) (now : ℚ)
    (httl : cfg.cache_ttl ≤ cfg.alias_ttl)
    (h : CacheAliasInv cfg st now) :
    CacheAliasInv cfg (lookup_alias cfg st temp_id now).2 now := by
  unfold lookup_alias
  cases ha : alookup temp_id st.alias_index with
  | none => exact h
  | some entry =>
    obtain ⟨stable_uuid, last_seen⟩ := entry
    dsimp only
    by_cases hexp : cfg.alias_ttl < now - last_seen
    · rw [if_pos hexp]
      intro t u r e hc hlt
      simp only at hc
      by_cases ht : t = temp_id
      · exfalso
        obtain ⟨ls, hl, hle⟩ := h t u r e hc hlt
        rw [ht, ha] at hl
        injection hl with hl
        simp only [Prod.mk.injEq] at hl
        have hls : ls = last_seen := hl.2.symm
        have : e ≤ last_seen + cfg.alias_ttl := by
          calc e ≤ ls + cfg.cache_ttl := hle
          _ ≤ last_seen + cfg.alias_ttl := by rw [hls]; exact add_le_add_left httl last_seen
        have hlt2 : last_seen + cfg.alias_ttl < now := by linarith
        exact absurd hlt (not_lt.mpr (le_trans this (le_of_lt hlt2)))
      · obtain ⟨ls, hl, hle⟩ := h t u r e hc hlt
        refine ⟨ls, ?_, hle⟩
        simp only [alookup_aremove, if_neg ht]
        exact hl
    · rw [if_neg hexp]
      cases alookup stable_uuid st.identities with
      | none => exact h
      | some record => exact h

/-- When `_lookup_alias` returns a hit, the state is unchanged and the
uuid maps to an identity record whose role is the returned one. -/
theorem lookup_alias_some (cfg : ResolverConfig) (st : ResolverState)
    (temp_id : String) (now : ℚ) (u role : String)
    (h : (lookup_alias cfg st temp_id now).1 = some (u, role)) :
    (lookup_alias cfg st temp_id now).2 = st ∧
    ∃ record, alookup u st.identities = some record ∧ record.role = role := by
  unfold lookup_alias at h ⊢
  cases ha : alookup temp_id st.alias_index with
  | none =>
    rw [ha] at h
    exact absurd h (by simp)
  | some entry =>
    obtain ⟨u0, ls0⟩ := entry
    rw [ha] at h
    dsimp only at h ⊢
    by_cases hexp : cfg.alias_ttl < now - ls0
    · rw [if_pos hexp] at h
      exact absurd h (by simp)
    · rw [if_neg hexp] at h ⊢
      cases hr : alookup u0 st.identities with
      | none =>
        rw [hr] at h
        exact absurd h (by simp)
      | some record =>
        rw [hr] at h
        dsimp only at h ⊢
        injection h with h
        simp only [Prod.mk.injEq] at h
        obtain ⟨hu, hrole⟩ := h
        subst hu
        exact ⟨rfl, record, hr, hrole⟩

/-- `resolve` preserves cache coherence at the time of the call. -/
theorem resolve_preserves_inv (cfg : ResolverConfig) (st : ResolverState)
    (temp_id : String) (voice_prob now : ℚ)
    (httl : cfg.cache_ttl ≤ cfg.alias_ttl)
    (h : CacheAliasInv cfg st now) :
    CacheAliasInv cfg (resolve cfg st temp_id voice_prob now).2 now := by
  have huncached : CacheAliasInv cfg
      (resolve_uncached cfg st temp_id voice_prob now).2 now := by
    unfold resolve_uncached
    have hlook := lookup_alias_preserves_inv cfg st temp_id now httl h
    cases hres : (lookup_alias cfg st temp_id now).1 with
    | none => simpa [hres] using hlook
    | some identity =>
      obtain ⟨stable_uuid, mapped_role⟩ := identity
      simp only [hres]
      by_cases hdeg : cfg.degrade_confidence ≤ voice_prob
      · rw [if_pos hdeg]
        obtain ⟨hstate, record, hrec, _⟩ :=
          lookup_alias_some cfg st temp_id now stable_uuid mapped_role hres
        rw [hstate]
        exact remember_preserves_inv cfg st temp_id stable_uuid _ now h record hrec
      · rw [if_neg hdeg]
        exact hlook
  unfold resolve
  cases hc : alookup temp_id st.cache with
  | none => exact huncached
  | some v =>
    obtain ⟨u0, r0, e0⟩ := v
    dsimp only
    by_cases he : now < e0
    · rw [if_pos he]
      exact h
    · rw [if_neg he]
      exact huncached

/-- `register_identity` preserves cache coherence: the alias stamp and
the cache expiry are written together. -/
theorem register_identity_preserves_inv (cfg : ResolverConfig) (st : ResolverState)
    (temp_id stable_uuid role : String) (now : ℚ)
    (h : CacheAliasInv cfg st now) :
    CacheAliasInv cfg (register_identity cfg st temp_id stable_uuid role now) now := by
  unfold register_identity remember
  dsimp only
  rw [alookup_aupsert, if_pos rfl]
  intro t u r e hc hlt
  simp only [alookup_aupsert] at hc
  by_cases ht : t = temp_id
  · rw [if_pos ht] at hc
    injection hc with hc
    simp only [Prod.mk.injEq] at hc
    obtain ⟨hu, _, he⟩ := hc
    refine ⟨now, ?_, ?_⟩
    · simp only [alookup_aupsert]
      rw [if_pos ht, hu]
    · rw [← he]
  · rw [if_neg ht] at hc
    obtain ⟨ls, hl, hle⟩ := h t u r e hc hlt
    refine ⟨ls, ?_, hle⟩
    simp only [alookup_aupsert]
    rw [if_neg ht, if_neg ht]
    exact hl

/-- Claim C6: when an alias has been seen more than `alias_ttl` seconds
before `now`, `resolve` never returns its uuid: given the cache
coherence invariant (which the empty state enjoys and `resolve` and
`register_identity` preserve) and `cache_ttl <= alias_ttl` (true for
the defaults, 180s vs 7 days), the call returns `(None, "guest")` for
any voice probability, the alias is pruned from the alias index and
from the persisted identity record, so the resolution is a miss. -/
theorem expired_alias_never_resolved (cfg : ResolverConfig) (st : ResolverState)
    (temp_id stable_uuid : String) (last_seen voice_prob now : ℚ)
    (httl : cfg.cache_ttl ≤ cfg.alias_ttl)
    (hinv : CacheAliasInv cfg st now)
    (halias : alookup temp_id st.alias_index = some (stable_uuid, last_seen))
    (hexpired : cfg.alias_ttl < now - last_seen) :
    (resolve cfg st temp_id voice_prob now).1 = (none, "guest") ∧
    alookup temp_id (resolve cfg st temp_id voice_prob now).2.alias_index = none ∧
    ∀ record,
      alookup stable_uuid (resolve cfg st temp_id voice_prob now).2.identities =
        some record →
      alookup temp_id record.aliases = none := by
  have hlook : lookup_alias cfg st temp_id now =
      (none,
        { st with
          alias_index := aremove temp_id st.alias_index
          identities :=
            match alookup stable_uuid st.identities with
            | some record =>
              aupsert stable_uuid
                { record with aliases := aremove temp_id record.aliases }
                st.identities
            | none => st.identities }) := by
    unfold lookup_alias
    rw [halias]
    dsimp only
    rw [if_pos hexpired]
  have hun : resolve_uncached cfg st temp_id voice_prob now =
      ((none, "guest"), (lookup_alias cfg st temp_id now).2) := by
    unfold resolve_uncached
    rw [hlook]
  have hres : resolve cfg st temp_id voice_prob now =
      ((none, "guest"), (lookup_alias cfg st temp_id now).2) := by
    unfold resolve
    cases hc : alookup temp_id st.cache with
    | none => exact hun
    | some v =>
      obtain ⟨u0, r0, e0⟩ := v
      dsimp only
      by_cases he : now < e0
      · exfalso
        obtain ⟨ls, hl, hle⟩ := hinv temp_id u0 r0 e0 hc he
        rw [halias] at hl
        injection hl with hl
        simp only [Prod.mk.injEq] at hl
        have hls : ls = last_seen := hl.2.symm
        have h1 : e0 ≤ last_seen + cfg.alias_ttl := by
          calc e0 ≤ ls + cfg.cache_ttl := hle
          _ ≤ last_seen + cfg.alias_ttl := by
            rw [hls]
            exact add_le_add_left httl last_seen
        have h2 : last_seen + cfg.alias_ttl < now := by linarith
        exact absurd he (not_lt.mpr (le_trans h1 (le_of_lt h2)))
      · rw [if_neg he]
        exact hun
  refine ⟨by rw [hres], ?_, ?_⟩
  · rw [hres, hlook]
    simp [alookup_aremove]
  · intro record hrec
    rw [hres, hlook] at hrec
    dsimp only at hrec
    cases hr0 : alookup stable_uuid st.identities with
    | none =>
      rw [hr0] at hrec
      dsimp only at hrec
      rw [hr0] at hrec
      exact absurd hrec (by simp [hr0])
    | some record0 =>
      rw [hr0] at hrec
      dsimp only at hrec
      rw [alookup_aupsert, if_pos rfl] at hrec
      injection hrec with hrec
      rw [← hrec]
      simp [alookup_aremove]

/-- Claim C6 witness: with the default configuration, an alias last seen
at t=0 is not served at t=604801s (one second past the 7-day TTL); the
resolver answers `(None, "guest")` and prunes the alias. -/
theorem expired_alias_never_resolved_witness :
    (resolve {}
      { cache := []
        identities :=
          [("uuid-1", { role := "owner", aliases := [("alice-temp", 0)], created_at := 0 })]
        alias_index := [("alice-temp", ("uuid-1", 0))] }
      "alice-temp" 1 604801).1 = (none, "guest") :=
  (expired_alias_never_resolved {} _ "alice-temp" "uuid-1" 0 1 604801
    (by norm_num)
    (fun t u r e hc _ => by simp [alookup] at hc)
    (by simp [alookup])
    (by norm_num)).1

end SpeakerId


namespace Orchestration

/-- Claim C7 counterexample: with a non-whitespace input, an exception
raised by the identity-resolution step propagates out of
`Orchestrator.process` instead of being converted into a failure
`IntentResult`; the claim that only whitespace-only input makes
`process` raise is false on the code. -/
theorem orchestrator_unwrapped_resolve_error :
    process failing_resolve_deps "hello" "spk" none 0 =
      .error (.collab ()) ∧ py_strip "hello" ≠ "" :=
  ⟨rfl, by decide⟩

/-- Claim C7 amended: `process` raises `EmptyInput` exactly on
whitespace-only input; only the intent-dispatch step is wrapped, so an
exception from the intent router is converted into the generic failure
`IntentResult` and never propagates (replacing a throwing handler by one
returning the generic failure does not change the outcome), while
exceptions of the identity, session, trust, persona, classification,
render and save collaborators propagate to the caller as collaborator
errors. -/
theorem orchestrator_error_boundary {E : Type} (deps : OrchDeps E)
    (user_text speaker_temp_id : String) (room_hint : Option String) (now : ℚ) :
    (process deps user_text speaker_temp_id room_hint now =
        .error .emptyInput ↔ py_strip user_text = "") ∧
    (∀ err : E,
      process { deps with handle := fun _ _ _ => .error err }
          user_text speaker_temp_id room_hint now =
        process { deps with handle := fun _ _ _ => .ok generic_dispatch_failure }
          user_text speaker_temp_id room_hint now) := by
  constructor
  · by_cases h : py_strip user_text = ""
    · simp [process, h]
    · rw [iff_false_intro h]
      simp only [iff_false]
      intro hcontra
      unfold process at hcontra
      rw [if_neg h] at hcontra
      dsimp only at hcontra
      repeat' split at hcontra
      all_goals simp_all
  · intro err
    rfl

/-- Claim C7 amended witness: whitespace-only input makes the
orchestrator raise the empty-input error. -/
theorem orchestrator_error_boundary_witness :
    process failing_resolve_deps "   " "spk" none 0 = .error .emptyInput :=
  (orchestrator_error_boundary failing_resolve_deps "   " "spk" none 0).1.mpr
    (by decide)

end Orchestration

/-- Membership through a descending insertion. -/
theorem mem_insertDescWith {α : Type} (gt : α → α → Bool) (x a : α) (l : List α) :
    a ∈ insertDescWith gt x l ↔ a = x ∨ a ∈ l := by
  induction l with
  | nil => simp [insertDescWith]
  | cons y ys ih =>
    simp only [insertDescWith]
    by_cases h : gt x y
    · rw [if_pos h]
      simp [List.mem_cons]
    · rw [if_neg h]
      simp only [List.mem_cons, ih]
      tauto

/-- A descending insertion keeps a key-descending list key-descending. -/
theorem pairwise_insertDescWith {α : Type} (key : α → ℚ) (x : α) (l : List α)
    (h : l.Pairwise (fun a b => key b ≤ key a)) :
    (insertDescWith (fun a b => decide (key b < key a)) x l).Pairwise
      (fun a b => key b ≤ key a) := by
  induction l with
  | nil => simp [insertDescWith]
  | cons y ys ih =>
    rw [List.pairwise_cons] at h
    obtain ⟨hy, hys⟩ := h
    simp only [insertDescWith]
    by_cases hxy : key y < key x
    · rw [if_pos (by simpa using hxy)]
      refine List.pairwise_cons.mpr ⟨?_, List.pairwise_cons.mpr ⟨hy, hys⟩⟩
      intro b hb
      rcases List.mem_cons.mp hb with rfl | hb
      · exact le_of_lt hxy
      · exact le_trans (hy b hb) (le_of_lt hxy)
    · rw [if_neg (by simpa using hxy)]
      refine List.pairwise_cons.mpr ⟨?_, ih hys⟩
      intro b hb
      rcases (mem_insertDescWith _ x b ys).mp hb with rfl | hb
      · exact le_of_not_lt hxy
      · exact hy b hb

/-- The descending sort is a permutation in the membership sense. -/
theorem mem_sortDescWith {α : Type} (gt : α → α → Bool) (l : List α) (a : α) :
    a ∈ sortDescWith gt l ↔ a ∈ l := by
  have key : ∀ (m acc : List α),
      a ∈ m.foldl (fun acc x => insertDescWith gt x acc) acc ↔ a ∈ acc ∨ a ∈ m := by
    intro m
    induction m with
    | nil => intro acc; simp
    | cons x xs ih =>
      intro acc
      simp only [List.foldl_cons]
      rw [ih (insertDescWith gt x acc)]
      rw [mem_insertDescWith]
      simp [List.mem_cons]
      tauto
  unfold sortDescWith
  rw [key l []]
  simp

/-- The descending sort by a rational key is key-descending. -/
theorem pairwise_sortDescWith {α : Type} (key : α → ℚ) (l : List α) :
    (sortDescWith (fun a b => decide (key b < key a)) l).Pairwise
      (fun a b => key b ≤ key a) := by
  have hk : ∀ (m acc : List α), acc.Pairwise (fun a b => key b ≤ key a) →
      (m.foldl (fun acc x =>
        insertDescWith (fun a b => decide (key b < key a)) x acc) acc).Pairwise
        (fun a b => key b ≤ key a) := by
    intro m
    induction m with
    | nil => intro acc h; exact h
    | cons x xs ih =>
      intro acc h
      exact ih _ (pairwise_insertDescWith key x acc h)
  exact hk l [] (by simp)

namespace Media

/-- Claim C8 counterexample: a history item with `tmdb_id = 0` is falsy
in the `watched_tmdb_ids` comprehension, so a candidate with the same
`tmdb_id = 0` is recommended even though its id appears in the watch
history, refuting the claim as stated. -/
theorem recommender_zero_id_counterexample :
    (recommend_for_user (some "u")
        [{ tmdb_id := some 0 }] []
        [{ tmdb_id := some 0, title := "X" }] 3).map (fun c => c.item.tmdb_id) =
      [some 0] ∧
    some 0 ∈ ([{ tmdb_id := some 0 }] : List MediaItem).map (fun i => i.tmdb_id) := by
  constructor
  · norm_num [recommend_for_user, watchedIds, build_profile, lastN, ingest_item,
      runtime_bucket, release_bucket, score_candidate, taste_score, explain,
      filter_and_score, rank_candidate,
      sortDescWith, insertDescWith, List.foldl, List.filterMap, List.filter]
  · simp

/-- Every entry produced by the scoring loop has an unwatched `tmdb_id`
and carries its sort key as its `score` field. -/
theorem filter_and_score_foldl_mem (watched_tmdb_ids : List ℤ)
    (profile : List (String × ℚ)) (personalized : Bool)
    (pool : List MediaItem) (acc : List (ℚ × RankedCandidate))
    (hacc : ∀ q ∈ acc,
      (∀ i : ℤ, q.2.item.tmdb_id = some i → watched_tmdb_ids.contains i = false) ∧
      q.2.score = q.1) :
    ∀ p ∈ pool.foldl (filter_and_score watched_tmdb_ids profile personalized) acc,
      (∀ i : ℤ, p.2.item.tmdb_id = some i → watched_tmdb_ids.contains i = false) ∧
      p.2.score = p.1 := by
  induction pool generalizing acc with
  | nil => exact hacc
  | cons c cs ih =>
    intro p hp
    rw [List.foldl_cons] at hp
    refine ih _ ?_ p hp
    intro q hq
    unfold filter_and_score at hq
    cases hc : c.tmdb_id with
    | none =>
      rw [hc] at hq
      exact hacc q hq
    | some i =>
      rw [hc] at hq
      dsimp only at hq
      by_cases hw : watched_tmdb_ids.contains i
      · rw [if_pos hw] at hq
        exact hacc q hq
      · rw [if_neg hw] at hq
        rcases List.mem_append.mp hq with hq | hq
        · exact hacc q hq
        · rcases List.mem_singleton.mp hq with rfl
          unfold rank_candidate
          dsimp only
          refine ⟨?_, rfl⟩
          intro i2 hi2
          rw [hc] at hi2
          injection hi2 with hi2
          rw [← hi2]
          exact eq_false_of_ne_true hw

/-- Claim C8 amended: the list returned by `recommend_for_user` contains
no candidate whose `tmdb_id` appears among the truthy (non-zero)
`tmdb_id`s of the user's watch history (a watched id of 0 is not
filtered), has length at most `k`, and is sorted non-increasing by the
attached `score` field. -/
theorem recommender_output_properties (user_uuid : Option String)
    (history_movies history_shows candidate_pool : List MediaItem) (k : ℕ) :
    (∀ c ∈ recommend_for_user user_uuid history_movies history_shows candidate_pool k,
      ∀ tmdb_id : ℤ, c.item.tmdb_id = some tmdb_id →
        tmdb_id ∉ watchedIds (history_movies ++ history_shows)) ∧
    (recommend_for_user user_uuid history_movies history_shows candidate_pool k).length ≤ k ∧
    ((recommend_for_user user_uuid history_movies history_shows
        candidate_pool k).map (·.score)).Pairwise (fun a b => b ≤ a) := by
  unfold recommend_for_user
  dsimp only
  have hempty : ∀ q ∈ ([] : List (ℚ × RankedCandidate)),
      (∀ i : ℤ, q.2.item.tmdb_id = some i →
        (watchedIds (history_movies ++ history_shows)).contains i = false) ∧
      q.2.score = q.1 := by
    intro q hq
    exact absurd hq (List.not_mem_nil q)
  refine ⟨?_, ?_, ?_⟩
  · intro c hc tmdb_id hid
    simp only [List.mem_map] at hc
    obtain ⟨p, hp, hpc⟩ := hc
    have hp3 := (mem_sortDescWith _ _ p).mp (List.mem_of_mem_take hp)
    have hq := (filter_and_score_foldl_mem _ _ _ candidate_pool [] hempty p hp3).1
      tmdb_id (by rw [hpc]; exact hid)
    intro hmem
    have hx : (watchedIds (history_movies ++ history_shows)).contains tmdb_id = true := by
      simpa [List.contains] using List.elem_iff.mpr hmem
    rw [hx] at hq
    exact absurd hq (by simp)
  · rw [List.length_map, List.length_take]
    exact min_le_left _ _
  · have hsorted := pairwise_sortDescWith (fun p : ℚ × RankedCandidate => p.1)
      (candidate_pool.foldl
        (filter_and_score (watchedIds (history_movies ++ history_shows))
          (build_profile (lastN 120 (history_movies ++ history_shows)))
          (user_uuid.isSome && decide (history_movies ++ history_shows ≠ []))) [])
    have htake := hsorted.sublist (List.take_sublist k _)
    rw [List.pairwise_map, List.pairwise_map]
    refine List.Pairwise.imp_of_mem ?_ htake
    intro a b ha hb hab
    have hamem := (mem_sortDescWith _ _ a).mp (List.mem_of_mem_take ha)
    have hbmem := (mem_sortDescWith _ _ b).mp (List.mem_of_mem_take hb)
    show (b.2).score ≤ (a.2).score
    rw [(filter_and_score_foldl_mem _ _ _ candidate_pool [] hempty a hamem).2]
    rw [(filter_and_score_foldl_mem _ _ _ candidate_pool [] hempty b hbmem).2]
    exact hab

/-- Claim C8 amended witness: a concrete run with one unwatched
candidate obeys the length bound and the descending-score order. -/
theorem recommender_output_properties_witness :
    (recommend_for_user (some "u") [{ tmdb_id := some 5 }] []
        [{ tmdb_id := some 7 }] 2).length ≤ 2 ∧
    ((recommend_for_user (some "u") [{ tmdb_id := some 5 }] []
        [{ tmdb_id := some 7 }] 2).map (·.score)).Pairwise (fun a b => b ≤ a) :=
  ⟨(recommender_output_properties (some "u") [{ tmdb_id := some 5 }] []
      [{ tmdb_id := some 7 }] 2).2.1,
   (recommender_output_properties (some "u") [{ tmdb_id := some 5 }] []
      [{ tmdb_id := some 7 }] 2).2.2⟩

end Media
